import Mathlib

/-!
Verification of the sales-system order intake and lifecycle service.

Shallow embedding of the core components:
* `OrderService` (createOrder / updateOrderStatus) from the order service module;
* `InventoryService.validateOrderInventory` / `findUnavailableItems`;
* `OutboxPublisher.handleRetry` / `moveToDeadLetterQueue`;
* `CircuitBreaker.execute` / `onSuccess` / `onFailure`.

Modelling conventions:
* JS numbers for money are modelled as exact rationals (`Rat`); timestamps as
  natural numbers (milliseconds); server-generated UUIDs as counter-drawn `Nat`
  ids or caller-supplied strings for event ids.
* The database is an explicit `DbState` record of three tables; `db.transaction`
  is modelled by a `TxOutcome` parameter: on `commit` the transaction body's
  pure state update is applied, on `abort` the state is returned unchanged
  (atomic rollback) and the `catch` branch of the source runs.
* The inventory RPC is an `InventoryOutcome` parameter: either a result list or
  a thrown error (circuit open / API failure).
-/

namespace SalesSystem

/-- `ORDER_STATUS` from types: "Pending Shipment" | "Shipped" | "Delivered". -/
inductive OrderStatus where
  | pendingShipment
  | shipped
  | delivered
deriving DecidableEq, Repr

/-- The literal status strings of `ORDER_STATUS`. -/
def statusText : OrderStatus → String
  | .pendingShipment => "Pending Shipment"
  | .shipped => "Shipped"
  | .delivered => "Delivered"

/-- `OrderErrorCode` enum from types. -/
inductive OrderErrorCode where
  | INSUFFICIENT_INVENTORY
  | INVENTORY_SERVICE_UNAVAILABLE
  | VALIDATION_ERROR
  | ORDER_NOT_FOUND
  | INVALID_STATUS_TRANSITION
  | DUPLICATE_EVENT
deriving DecidableEq, Repr

/-- `OrderItem`: productId, quantity, price (JS number modelled as `Rat`). -/
structure OrderItem where
  productId : String
  quantity : Nat
  price : Rat
deriving DecidableEq, Repr

/-- `CreateOrderRequest` from types. -/
structure CreateOrderRequest where
  customerId : String
  items : List OrderItem
deriving DecidableEq, Repr

/-- `UnavailableItem` from types: one entry of the INSUFFICIENT_INVENTORY details. -/
structure UnavailableItem where
  productId : String
  requested : Nat
  available : Nat
deriving DecidableEq, Repr

/-- `OrderError` from types (details present only on INSUFFICIENT_INVENTORY). -/
structure OrderError where
  code : OrderErrorCode
  message : String
  details : Option (List UnavailableItem)
deriving DecidableEq, Repr

/-- `InventoryCheckRequest` from the inventory types. -/
structure InventoryCheckRequest where
  productId : String
  quantity : Nat
deriving DecidableEq, Repr

/-- `InventoryCheckResponse` from the inventory types; `availableQuantity` is optional. -/
structure InventoryCheckResponse where
  available : Bool
  productId : String
  availableQuantity : Option Nat
deriving DecidableEq, Repr

/-- A row of the `orders` table (schema: id uuid, customer_id, status, items jsonb,
total_amount numeric(10,2), idempotency_key unique nullable, created_at, updated_at). -/
structure OrderRow where
  id : Nat
  customerId : String
  status : OrderStatus
  items : List OrderItem
  totalAmount : Rat
  idempotencyKey : Option String
  createdAt : Nat
  updatedAt : Nat
deriving DecidableEq, Repr

/-- The jsonb payload written into an `outbox_events` row by `createOrderWithOutbox`. -/
structure OutboxPayload where
  eventId : String
  eventType : String
  timestamp : Nat
  orderId : Nat
  customerId : String
  items : List OrderItem
  totalAmount : Rat
  status : OrderStatus
  createdAt : Nat
deriving DecidableEq, Repr

/-- A row of the `outbox_events` table. -/
structure OutboxRow where
  id : Nat
  eventType : String
  aggregateId : Nat
  payload : OutboxPayload
  published : Bool
  retryCount : Nat
  nextRetryAt : Option Nat
  createdAt : Nat
  publishedAt : Option Nat
deriving DecidableEq, Repr

/-- A row of the `processed_events` table. -/
structure ProcessedEventRow where
  eventId : String
  eventType : String
  processedAt : Nat
deriving DecidableEq, Repr

/-- The database: the three tables plus counters standing for the uuid generator
of the `id` default columns. -/
structure DbState where
  orders : List OrderRow
  outboxEvents : List OutboxRow
  processedEvents : List ProcessedEventRow
  nextOrderId : Nat
  nextOutboxId : Nat
deriving DecidableEq, Repr

/-- Outcome of the external inventory call `inventoryService.checkBatchAvailability`:
a result list, or a thrown error (circuit open, API failure, timeout). -/
inductive InventoryOutcome where
  | ok (results : List InventoryCheckResponse)
  | err
deriving DecidableEq, Repr

/-- Outcome of a `db.transaction`: the body commits, or some call inside throws
and the whole transaction rolls back. -/
inductive TxOutcome where
  | commit
  | abort
deriving DecidableEq, Repr

/-- `CreateOrderResponse` from types, as built by `mapOrderToResponse`. -/
structure CreateOrderResponse where
  orderId : Nat
  status : OrderStatus
  customerId : String
  items : List OrderItem
  totalAmount : Rat
  createdAt : Nat
deriving DecidableEq, Repr

/-- `OrderCreationResult` (discriminated on `success`). -/
inductive OrderCreationResult where
  | success (order : CreateOrderResponse)
  | failure (error : OrderError)
deriving DecidableEq, Repr

/-- `OrderUpdateResult` (discriminated on `success`). -/
inductive OrderUpdateResult where
  | success (order : OrderRow)
  | failure (error : OrderError)
deriving DecidableEq, Repr

/-! ## Inventory service -/

/-- `InventoryService.prepareInventoryRequests`. -/
def prepareInventoryRequests (items : List OrderItem) : List InventoryCheckRequest :=
  items.map (fun item => { productId := item.productId, quantity := item.quantity })

/-- `InventoryService.findUnavailableItems`: pair each inventory result with the
request item at the same index, keep the unavailable ones, and build the detail
entries (`result.availableQuantity || 0` becomes `getD 0`). -/
def findUnavailableItems (items : List OrderItem)
    (inventoryResults : List InventoryCheckResponse) : List UnavailableItem :=
  ((inventoryResults.zip items).filter (fun p => !p.1.available)).map
    (fun p =>
      { productId := p.2.productId
        requested := p.2.quantity
        available := p.1.availableQuantity.getD 0 })

/-- `InventoryService.hasUnavailableItems`. -/
def hasUnavailableItems (unavailableItems : List UnavailableItem) : Bool :=
  unavailableItems.length > 0

/-- Result of `InventoryService.validateOrderInventory` (the source reuses
`OrderCreationResult` with an order-less success). -/
inductive InvValidationResult where
  | ok
  | fail (error : OrderError)
deriving DecidableEq, Repr

/-- `InventoryService.createInventoryErrorResult`. -/
def createInventoryErrorResult (unavailableItems : List UnavailableItem) : OrderError :=
  { code := .INSUFFICIENT_INVENTORY
    message := "Some items are not available in requested quantities"
    details := some unavailableItems }

/-- `InventoryService.handleInventoryError` (the catch branch). -/
def handleInventoryError : OrderError :=
  { code := .INVENTORY_SERVICE_UNAVAILABLE
    message := "Unable to check inventory at this time"
    details := none }

/-- `InventoryService.validateOrderInventory`: batch-check all items, collect the
unavailable ones, fail with INSUFFICIENT_INVENTORY if any; a thrown inventory
error is caught and mapped to INVENTORY_SERVICE_UNAVAILABLE. -/
def validateOrderInventory (items : List OrderItem)
    (inv : InventoryOutcome) : InvValidationResult :=
  match inv with
  | .err => .fail handleInventoryError
  | .ok inventoryResults =>
    let unavailableItems := findUnavailableItems items inventoryResults
    if hasUnavailableItems unavailableItems then
      .fail (createInventoryErrorResult unavailableItems)
    else
      .ok

/-! ## Order service: createOrder -/

/-- `OrderService.findOrderByIdempotencyKey` (`findFirst` on the unique key). -/
def findOrderByIdempotencyKey (idempotencyKey : String) (st : DbState) : Option OrderRow :=
  st.orders.find? (fun o => o.idempotencyKey = some idempotencyKey)

/-- `OrderService.mapOrderToResponse` (`parseFloat` of the stored decimal is the
identity in the exact-rational model). -/
def mapOrderToResponse (order : OrderRow) : CreateOrderResponse :=
  { orderId := order.id
    status := order.status
    customerId := order.customerId
    items := order.items
    totalAmount := order.totalAmount
    createdAt := order.createdAt }

/-- `OrderService.createSuccessResult`. -/
def createSuccessResult (order : OrderRow) : OrderCreationResult :=
  .success (mapOrderToResponse order)

/-- `OrderService.handleIdempotency`: if a key was supplied and an order already
holds it, short-circuit with that order as a success result. -/
def handleIdempotency (idempotencyKey : Option String) (st : DbState) :
    Option OrderCreationResult :=
  match idempotencyKey with
  | none => none
  | some k =>
    match findOrderByIdempotencyKey k st with
    | some existingOrder => some (createSuccessResult existingOrder)
    | none => none

/-- `OrderService.calculateTotal`: `items.reduce((sum, item) => sum + item.price * item.quantity, 0)`. -/
def calculateTotal (items : List OrderItem) : Rat :=
  items.foldl (fun sum item => sum + item.price * item.quantity) 0

/-- `OrderService.handleOrderCreationError` (the catch branch of createOrder). -/
def handleOrderCreationError : OrderError :=
  { code := .INVENTORY_SERVICE_UNAVAILABLE
    message := "Unable to process order at this time. Please try again later."
    details := none }

/-- Body of `OrderService.createOrderWithOutbox` on commit: insert the order row
(status Pending Shipment) and one outbox row (eventType order.created,
aggregateId the new order id, payload with the given fresh eventId), returning
the inserted order and the new state. -/
def createOrderWithOutbox (request : CreateOrderRequest) (totalAmount : Rat)
    (idempotencyKey : Option String) (eventId : String) (now : Nat)
    (st : DbState) : OrderRow × DbState :=
  let order : OrderRow :=
    { id := st.nextOrderId
      customerId := request.customerId
      status := .pendingShipment
      items := request.items
      totalAmount := totalAmount
      idempotencyKey := idempotencyKey
      createdAt := now
      updatedAt := now }
  let outboxRow : OutboxRow :=
    { id := st.nextOutboxId
      eventType := "order.created"
      aggregateId := order.id
      payload :=
        { eventId := eventId
          eventType := "order.created"
          timestamp := now
          orderId := order.id
          customerId := order.customerId
          items := order.items
          totalAmount := order.totalAmount
          status := order.status
          createdAt := order.createdAt }
      published := false
      retryCount := 0
      nextRetryAt := none
      createdAt := now
      publishedAt := none }
  (order,
    { orders := st.orders ++ [order]
      outboxEvents := st.outboxEvents ++ [outboxRow]
      processedEvents := st.processedEvents
      nextOrderId := st.nextOrderId + 1
      nextOutboxId := st.nextOutboxId + 1 })

/-- `OrderService.createOrder`. Returns the result, the database state after the
call, and whether the inventory service was invoked. The `inv` parameter is the
outcome of the external inventory call, `tx` the fate of the
`createOrderWithOutbox` transaction, `eventId` the fresh uuid for the outbox
payload, `now` the clock. -/
def createOrder (request : CreateOrderRequest) (idempotencyKey : Option String)
    (inv : InventoryOutcome) (tx : TxOutcome) (eventId : String) (now : Nat)
    (st : DbState) : OrderCreationResult × DbState × Bool :=
  match handleIdempotency idempotencyKey st with
  | some idempotencyResult => (idempotencyResult, st, false)
  | none =>
    match validateOrderInventory request.items inv with
    | .fail e => (.failure e, st, true)
    | .ok =>
      let totalAmount := calculateTotal request.items
      match tx with
      | .abort => (.failure handleOrderCreationError, st, true)
      | .commit =>
        let (order, st') :=
          createOrderWithOutbox request totalAmount idempotencyKey eventId now st
        (createSuccessResult order, st', true)

/-! ## Order service: updateOrderStatus -/

/-- The `validTransitions` record of `isValidStatusTransition`. -/
def validTransitions : OrderStatus → List OrderStatus
  | .pendingShipment => [.shipped]
  | .shipped => [.delivered]
  | .delivered => []

/-- `OrderService.isValidStatusTransition`. -/
def isValidStatusTransition (currentStatus newStatus : OrderStatus) : Bool :=
  (validTransitions currentStatus).contains newStatus

/-- The marker eventType derived in `performStatusUpdate`:
`order.` + status lowercased with the space replaced by an underscore. -/
def derivedEventType (newStatus : OrderStatus) : String :=
  "order." ++ ((statusText newStatus).toLower.replace " " "_")

/-- `OrderService.checkDuplicateEvent`: `findFirst` on processed_events by eventId,
yielding a DUPLICATE_EVENT failure when present. -/
def checkDuplicateEvent (eventId : String) (st : DbState) : Option OrderUpdateResult :=
  match st.processedEvents.find? (fun p => p.eventId = eventId) with
  | some _ =>
    some (.failure
      { code := .DUPLICATE_EVENT
        message := "Event already processed"
        details := none })
  | none => none

/-- `OrderService.findOrderById` inside the transaction. -/
def findOrderById (orderId : Nat) (st : DbState) : Option OrderRow :=
  st.orders.find? (fun o => o.id = orderId)

/-- `OrderService.createOrderNotFoundError`. -/
def createOrderNotFoundError (orderId : Nat) : OrderUpdateResult :=
  .failure
    { code := .ORDER_NOT_FOUND
      message := "Order " ++ toString orderId ++ " not found"
      details := none }

/-- `OrderService.validateStatusTransition`: INVALID_STATUS_TRANSITION failure
when the forward-only check rejects the pair, otherwise null. -/
def validateStatusTransition (currentOrder : OrderRow) (newStatus : OrderStatus) :
    Option OrderUpdateResult :=
  if !isValidStatusTransition currentOrder.status newStatus then
    some (.failure
      { code := .INVALID_STATUS_TRANSITION
        message := "Cannot transition from " ++ statusText currentOrder.status
          ++ " to " ++ statusText newStatus
        details := none })
  else
    none

/-- `OrderService.performStatusUpdate`: set status and updatedAt on the order row
and insert the processed-event marker, returning the updated row and state. -/
def performStatusUpdate (orderId : Nat) (newStatus : OrderStatus) (eventId : String)
    (now : Nat) (currentOrder : OrderRow) (st : DbState) : OrderRow × DbState :=
  let updatedOrder := { currentOrder with status := newStatus, updatedAt := now }
  let marker : ProcessedEventRow :=
    { eventId := eventId
      eventType := derivedEventType newStatus
      processedAt := now }
  (updatedOrder,
    { st with
        orders := st.orders.map (fun o =>
          if o.id = orderId then { o with status := newStatus, updatedAt := now } else o)
        processedEvents := st.processedEvents ++ [marker] })

/-- `OrderService.handleStatusUpdateError` (the catch branch of updateOrderStatus). -/
def handleStatusUpdateError : OrderError :=
  { code := .INVENTORY_SERVICE_UNAVAILABLE
    message := "Unable to update order status at this time"
    details := none }

/-- `OrderService.updateOrderStatus`: one transaction doing duplicate-event check,
order lookup, transition validation, then the status update + marker insert.
Any error thrown inside the transaction rolls it back and is caught,
returning a plain failure result. -/
def updateOrderStatus (orderId : Nat) (newStatus : OrderStatus) (eventId : String)
    (tx : TxOutcome) (now : Nat) (st : DbState) : OrderUpdateResult × DbState :=
  match tx with
  | .abort => (.failure handleStatusUpdateError, st)
  | .commit =>
    match checkDuplicateEvent eventId st with
    | some duplicateCheck => (duplicateCheck, st)
    | none =>
      match findOrderById orderId st with
      | none => (createOrderNotFoundError orderId, st)
      | some currentOrder =>
        match validateStatusTransition currentOrder newStatus with
        | some transitionValidation => (transitionValidation, st)
        | none =>
          let (updatedOrder, st') :=
            performStatusUpdate orderId newStatus eventId now currentOrder st
          (.success updatedOrder, st')

/-! ## Outbox publisher -/

/-- The publisher constants from the outbox publisher worker. -/
def maxRetries : Nat := 5

/-- `baseDelayMs = 100`. -/
def baseDelayMs : Nat := 100

/-- `maxDelayMs = 1600`. -/
def maxDelayMs : Nat := 1600

/-- The in-memory row shape (`OutboxEventRow`) selected by the publisher's lease
query — the snapshot a worker holds while publishing. -/
structure OutboxEventRow where
  id : Nat
  eventType : String
  aggregateId : Nat
  payload : OutboxPayload
  retryCount : Nat
  createdAt : Nat
deriving DecidableEq, Repr

/-- `DLQEvent` as built by `moveToDeadLetterQueue`. -/
structure DLQEvent where
  eventId : String
  eventType : String
  timestamp : Nat
  originalEvent : OutboxEventRow
  reason : String
deriving DecidableEq, Repr

/-- The snapshot of a stored outbox row as selected by the lease query. -/
def leaseSnapshot (row : OutboxRow) : OutboxEventRow :=
  { id := row.id
    eventType := row.eventType
    aggregateId := row.aggregateId
    payload := row.payload
    retryCount := row.retryCount
    createdAt := row.createdAt }

/-- The WHERE predicate of the publisher's lease query:
`published=false AND retryCount <= maxRetries AND (nextRetryAt IS NULL OR nextRetryAt <= now)`. -/
def leasable (row : OutboxRow) (now : Nat) : Bool :=
  !row.published && row.retryCount ≤ maxRetries &&
    (row.nextRetryAt.isNone || row.nextRetryAt.getD 0 ≤ now)

/-- State of one outbox row together with the dead-letter topic contents,
tracking a single row's retry lifecycle. -/
structure RowSim where
  row : OutboxRow
  dlqTopic : List DLQEvent
deriving DecidableEq, Repr

/-- `OutboxPublisher.moveToDeadLetterQueue`: mark the row published (to stop
retrying) and publish one DLQ event carrying the leased row snapshot. -/
def moveToDeadLetterQueue (event : OutboxEventRow) (dlqEventId : String) (now : Nat)
    (s : RowSim) : RowSim :=
  { row := { s.row with published := true, publishedAt := some now }
    dlqTopic := s.dlqTopic ++
      [{ eventId := dlqEventId
         eventType := "dlq.event"
         timestamp := now
         originalEvent := event
         reason := "Max retries exceeded" }] }

/-- `OutboxPublisher.handleRetry`: on a failed publish, either move to the DLQ
(when `newRetryCount >= maxRetries`) or schedule an exponential-backoff retry
`nextRetryAt = now + min(baseDelayMs * 2^(newRetryCount-1), maxDelayMs)`. -/
def handleRetry (event : OutboxEventRow) (dlqEventId : String) (now : Nat)
    (s : RowSim) : RowSim :=
  let newRetryCount := event.retryCount + 1
  if newRetryCount ≥ maxRetries then
    moveToDeadLetterQueue event dlqEventId now s
  else
    let delayMs := min (baseDelayMs * 2 ^ (newRetryCount - 1)) maxDelayMs
    let nextRetryAt := now + delayMs
    { s with row := { s.row with retryCount := newRetryCount, nextRetryAt := some nextRetryAt } }

/-- One poll-cycle step for a row whose publish fails: the worker leases the row
snapshot and runs the failure path (`handleRetry`). -/
def publishFailStep (dlqEventId : String) (now : Nat) (s : RowSim) : RowSim :=
  handleRetry (leaseSnapshot s.row) dlqEventId now s

/-- `OutboxPublisher.getTopicForEventType`. -/
def getTopicForEventType (eventType : String) : String :=
  if eventType = "order.created" then "order-events"
  else if eventType = "order.shipped" then "delivery-events"
  else if eventType = "order.delivered" then "delivery-events"
  else "unknown-events"

/-! ## Circuit breaker -/

/-- `CircuitState` of the circuit breaker. -/
inductive CircuitState where
  | CLOSED
  | OPEN
  | HALF_OPEN
deriving DecidableEq, Repr

/-- `CircuitBreakerConfig`. -/
structure CircuitBreakerConfig where
  failureThreshold : Nat
  timeout : Nat
  resetTimeout : Nat
deriving DecidableEq, Repr

/-- The mutable fields of `CircuitBreaker`. -/
structure CircuitBreakerState where
  state : CircuitState
  failureCount : Nat
  lastFailureTime : Option Nat
  nextAttempt : Option Nat
deriving DecidableEq, Repr

/-- The initial circuit breaker: CLOSED with zero failures. -/
def initialBreaker : CircuitBreakerState :=
  { state := .CLOSED, failureCount := 0, lastFailureTime := none, nextAttempt := none }

/-- Outcome of racing the wrapped operation against the timeout promise:
the operation resolves, it rejects, or the timeout fires first. -/
inductive OpOutcome where
  | success
  | failure
  | timedOut
deriving DecidableEq, Repr

/-- Result of `CircuitBreaker.execute` as seen by the caller: the immediate
circuit-open rejection, the operation's value, or its propagated error. -/
inductive ExecResult where
  | circuitOpenError
  | opValue
  | opError
deriving DecidableEq, Repr

/-- `CircuitBreaker.shouldAttemptReset`: `nextAttempt ? Date.now() >= nextAttempt : false`. -/
def shouldAttemptReset (cb : CircuitBreakerState) (now : Nat) : Bool :=
  match cb.nextAttempt with
  | some t => now ≥ t
  | none => false

/-- `CircuitBreaker.onSuccess`: reset failures and close. -/
def onSuccess (cb : CircuitBreakerState) : CircuitBreakerState :=
  { cb with failureCount := 0, state := .CLOSED }

/-- `CircuitBreaker.onFailure`: count the failure; at the threshold, open the
circuit with `nextAttempt = now + resetTimeout`. -/
def onFailure (cfg : CircuitBreakerConfig) (now : Nat) (cb : CircuitBreakerState) :
    CircuitBreakerState :=
  let cb := { cb with failureCount := cb.failureCount + 1, lastFailureTime := some now }
  if cb.failureCount ≥ cfg.failureThreshold then
    { cb with state := .OPEN, nextAttempt := some (now + cfg.resetTimeout) }
  else
    cb

/-- `CircuitBreaker.execute`: reject immediately when OPEN and the reset time has
not arrived, else (transitioning OPEN → HALF_OPEN when due) run the operation
raced against the timeout; a timeout counts as a failure. -/
def execute (cfg : CircuitBreakerConfig) (now : Nat) (outcome : OpOutcome)
    (cb : CircuitBreakerState) : ExecResult × CircuitBreakerState :=
  if cb.state = .OPEN ∧ ¬ shouldAttemptReset cb now then
    (.circuitOpenError, cb)
  else
    let cb := if cb.state = .OPEN then { cb with state := .HALF_OPEN } else cb
    match outcome with
    | .success => (.opValue, onSuccess cb)
    | .failure => (.opError, onFailure cfg now cb)
    | .timedOut => (.opError, onFailure cfg now cb)

/-- Reachability of a breaker state from the initial one under `execute` steps. -/
inductive BreakerReachable (cfg : CircuitBreakerConfig) : CircuitBreakerState → Prop where
  | init : BreakerReachable cfg initialBreaker
  | step (cb : CircuitBreakerState) (now : Nat) (outcome : OpOutcome) :
      BreakerReachable cfg cb → BreakerReachable cfg (execute cfg now outcome cb).2

/-! ## Helper lemmas -/

/-- The forward-only transition check accepts exactly the two allowed pairs. -/
theorem isValidStatusTransition_iff (a b : OrderStatus) :
    isValidStatusTransition a b = true ↔
      ((a = .pendingShipment ∧ b = .shipped) ∨ (a = .shipped ∧ b = .delivered)) := by
  cases a <;> cases b <;> decide

/-- When `checkDuplicateEvent` short-circuits, the result is a DUPLICATE_EVENT failure. -/
theorem checkDuplicateEvent_some (eventId : String) (st : DbState) (d : OrderUpdateResult)
    (h : checkDuplicateEvent eventId st = some d) :
    d = .failure
      { code := .DUPLICATE_EVENT
        message := "Event already processed"
        details := none } := by
  unfold checkDuplicateEvent at h
  cases hfind : st.processedEvents.find? (fun p => p.eventId = eventId) with
  | none => rw [hfind] at h; exact absurd h (by simp)
  | some q => rw [hfind] at h; simp_all

/-- `validateStatusTransition` passes exactly when the transition check accepts. -/
theorem validateStatusTransition_none_iff (cur : OrderRow) (newStatus : OrderStatus) :
    validateStatusTransition cur newStatus = none ↔
      isValidStatusTransition cur.status newStatus = true := by
  unfold validateStatusTransition
  cases hv : isValidStatusTransition cur.status newStatus <;> simp [hv]

/-! ## Claim theorems -/

/-- Claim C10: `updateOrderStatus` never throws to its caller; when the store
transaction fails with any raised error, it returns a failure value whose code
is INVENTORY_SERVICE_UNAVAILABLE — distinct from the three codes listed for the
operation — and mutates no row. -/
theorem updateOrderStatus_abort_unavailable (orderId : Nat) (newStatus : OrderStatus)
    (eventId : String) (now : Nat) (st : DbState) :
    ∃ e : OrderError,
      updateOrderStatus orderId newStatus eventId .abort now st = (.failure e, st) ∧
      e.code = .INVENTORY_SERVICE_UNAVAILABLE ∧
      e.code ≠ .DUPLICATE_EVENT ∧
      e.code ≠ .ORDER_NOT_FOUND ∧
      e.code ≠ .INVALID_STATUS_TRANSITION := by
  exact ⟨handleStatusUpdateError, rfl, rfl, by decide, by decide, by decide⟩

/-- Claim C3: `updateOrderStatus` succeeds only on the pairs
(PendingShipment, Shipped) and (Shipped, Delivered); on a fresh event for an
existing order, every other pair yields INVALID_STATUS_TRANSITION and leaves
the database unchanged. -/
theorem updateOrderStatus_forward_only (orderId : Nat) (newStatus : OrderStatus)
    (eventId : String) (tx : TxOutcome) (now : Nat) (st : DbState) :
    (∀ o', (updateOrderStatus orderId newStatus eventId tx now st).1 = .success o' →
      ∃ cur, findOrderById orderId st = some cur ∧
        ((cur.status = .pendingShipment ∧ newStatus = .shipped) ∨
         (cur.status = .shipped ∧ newStatus = .delivered)))
    ∧ (∀ cur, tx = .commit →
        checkDuplicateEvent eventId st = none →
        findOrderById orderId st = some cur →
        ¬ ((cur.status = .pendingShipment ∧ newStatus = .shipped) ∨
           (cur.status = .shipped ∧ newStatus = .delivered)) →
        (∃ e, (updateOrderStatus orderId newStatus eventId tx now st).1 = .failure e ∧
          e.code = .INVALID_STATUS_TRANSITION) ∧
        (updateOrderStatus orderId newStatus eventId tx now st).2 = st) := by
  constructor
  · intro o' hsucc
    cases tx with
    | abort => simp [updateOrderStatus] at hsucc
    | commit =>
      unfold updateOrderStatus at hsucc
      cases hdup : checkDuplicateEvent eventId st with
      | some d =>
        rw [checkDuplicateEvent_some eventId st d hdup] at hdup
        simp [hdup] at hsucc
      | none =>
        cases hfind : findOrderById orderId st with
        | none => simp [hdup, hfind, createOrderNotFoundError] at hsucc
        | some cur =>
          cases hb : isValidStatusTransition cur.status newStatus with
          | false =>
            have hv : validateStatusTransition cur newStatus = some (.failure
                { code := .INVALID_STATUS_TRANSITION
                  message := "Cannot transition from " ++ statusText cur.status
                    ++ " to " ++ statusText newStatus
                  details := none }) := by
              unfold validateStatusTransition
              rw [hb]
              rfl
            simp [hdup, hfind, hv] at hsucc
          | true =>
            exact ⟨cur, rfl, (isValidStatusTransition_iff cur.status newStatus).mp hb⟩
  · intro cur htx hdup hfind hpair
    subst htx
    have hvalid : isValidStatusTransition cur.status newStatus = false := by
      cases hb : isValidStatusTransition cur.status newStatus
      · rfl
      · exact absurd ((isValidStatusTransition_iff cur.status newStatus).mp hb) hpair
    have hv : validateStatusTransition cur newStatus = some (.failure
        { code := .INVALID_STATUS_TRANSITION
          message := "Cannot transition from " ++ statusText cur.status
            ++ " to " ++ statusText newStatus
          details := none }) := by
      unfold validateStatusTransition
      rw [hvalid]
      rfl
    constructor
    · refine ⟨{ code := .INVALID_STATUS_TRANSITION
                message := "Cannot transition from " ++ statusText cur.status
                  ++ " to " ++ statusText newStatus
                details := none }, ?_, rfl⟩
      simp [updateOrderStatus, hdup, hfind, hv]
    · simp [updateOrderStatus, hdup, hfind, hv]

/-- Witness for claim C3: an order already Delivered rejects a Shipped update
with INVALID_STATUS_TRANSITION and an unchanged database. -/
theorem updateOrderStatus_forward_only_witness :
    (∃ e, (updateOrderStatus 1 .shipped "e1" .commit 50
      { orders := [{ id := 1, customerId := "c-1", status := .delivered, items := [],
                     totalAmount := 35, idempotencyKey := none, createdAt := 0, updatedAt := 0 }]
        outboxEvents := [], processedEvents := [], nextOrderId := 2, nextOutboxId := 1 }).1
        = .failure e ∧ e.code = .INVALID_STATUS_TRANSITION) ∧
    (updateOrderStatus 1 .shipped "e1" .commit 50
      { orders := [{ id := 1, customerId := "c-1", status := .delivered, items := [],
                     totalAmount := 35, idempotencyKey := none, createdAt := 0, updatedAt := 0 }]
        outboxEvents := [], processedEvents := [], nextOrderId := 2, nextOutboxId := 1 }).2
      = { orders := [{ id := 1, customerId := "c-1", status := .delivered, items := [],
                       totalAmount := 35, idempotencyKey := none, createdAt := 0, updatedAt := 0 }]
          outboxEvents := [], processedEvents := [], nextOrderId := 2, nextOutboxId := 1 } :=
  (updateOrderStatus_forward_only 1 .shipped "e1" .commit 50 _).2
    { id := 1, customerId := "c-1", status := .delivered, items := [],
      totalAmount := 35, idempotencyKey := none, createdAt := 0, updatedAt := 0 }
    rfl rfl rfl (by decide)

/-- A `checkDuplicateEvent` pass means no marker carries the eventId. -/
theorem checkDuplicateEvent_none (eventId : String) (st : DbState)
    (h : checkDuplicateEvent eventId st = none) :
    st.processedEvents.find? (fun p => p.eventId = eventId) = none := by
  unfold checkDuplicateEvent at h
  cases hfind : st.processedEvents.find? (fun p => p.eventId = eventId) with
  | none => rfl
  | some q => rw [hfind] at h; simp_all

/-- `find?` by order id commutes with the status-update row map. -/
theorem find?_map_update_id (orderId : Nat) (f : OrderRow → OrderRow)
    (hf : ∀ o, (f o).id = o.id) (l : List OrderRow) :
    (l.map (fun o => if o.id = orderId then f o else o)).find? (fun o => o.id = orderId)
      = (l.find? (fun o => o.id = orderId)).map f := by
  induction l with
  | nil => rfl
  | cons head tail ih =>
    by_cases h : head.id = orderId
    · rw [List.map_cons, if_pos h,
        List.find?_cons_of_pos _ (by simp [hf, h]),
        List.find?_cons_of_pos _ (by simp [h]),
        Option.map_some']
    · rw [List.map_cons, if_neg h,
        List.find?_cons_of_neg _ (by simp [h]),
        List.find?_cons_of_neg _ (by simp [h]),
        ih]

/-- A duplicate hit makes `updateOrderStatus` return it with the state untouched. -/
theorem updateOrderStatus_of_dup (orderId : Nat) (newStatus : OrderStatus)
    (eventId : String) (now : Nat) (st : DbState) (d : OrderUpdateResult)
    (h : checkDuplicateEvent eventId st = some d) :
    updateOrderStatus orderId newStatus eventId .commit now st = (d, st) := by
  unfold updateOrderStatus
  rw [h]

/-- Claim C4: a status update whose eventId already has a processed-event marker
returns DUPLICATE_EVENT and mutates nothing, and applying the same
order.shipped event twice leaves the order Shipped with exactly one marker for
that eventId. -/
theorem updateOrderStatus_duplicate_event (orderId : Nat) (newStatus : OrderStatus)
    (eventId : String) (now now' : Nat) (st : DbState) :
    (∀ p ∈ st.processedEvents, p.eventId = eventId →
      ∃ e, updateOrderStatus orderId newStatus eventId .commit now st = (.failure e, st) ∧
        e.code = .DUPLICATE_EVENT)
    ∧ (∀ cur, checkDuplicateEvent eventId st = none →
        findOrderById orderId st = some cur →
        cur.status = .pendingShipment →
        (∃ o1, (updateOrderStatus orderId .shipped eventId .commit now st).1
            = .success o1 ∧ o1.status = .shipped) ∧
        (∃ o2, findOrderById orderId
            (updateOrderStatus orderId .shipped eventId .commit now'
              (updateOrderStatus orderId .shipped eventId .commit now st).2).2 = some o2 ∧
          o2.status = .shipped) ∧
        (∃ e, (updateOrderStatus orderId .shipped eventId .commit now'
            (updateOrderStatus orderId .shipped eventId .commit now st).2).1 = .failure e ∧
          e.code = .DUPLICATE_EVENT) ∧
        (updateOrderStatus orderId .shipped eventId .commit now'
            (updateOrderStatus orderId .shipped eventId .commit now st).2).2
          = (updateOrderStatus orderId .shipped eventId .commit now st).2 ∧
        (((updateOrderStatus orderId .shipped eventId .commit now st).2.processedEvents.filter
            (fun p => p.eventId = eventId)).length = 1)) := by
  constructor
  · intro p hp hid
    have hsome : (st.processedEvents.find? (fun q => q.eventId = eventId)).isSome :=
      List.find?_isSome.mpr ⟨p, hp, by simp [hid]⟩
    obtain ⟨q, hq⟩ := Option.isSome_iff_exists.mp hsome
    have hdup : checkDuplicateEvent eventId st = some (.failure
        { code := .DUPLICATE_EVENT
          message := "Event already processed"
          details := none }) := by
      unfold checkDuplicateEvent
      rw [hq]
    exact ⟨{ code := .DUPLICATE_EVENT
             message := "Event already processed"
             details := none },
      updateOrderStatus_of_dup orderId newStatus eventId now st _ hdup, rfl⟩
  · intro cur hdup hfind hstatus
    have hvalid : isValidStatusTransition cur.status .shipped = true := by
      rw [hstatus]; decide
    have hv : validateStatusTransition cur .shipped = none :=
      (validateStatusTransition_none_iff cur .shipped).mpr hvalid
    have hfind0 : st.processedEvents.find? (fun p => p.eventId = eventId) = none :=
      checkDuplicateEvent_none eventId st hdup
    have hstep1 : updateOrderStatus orderId .shipped eventId .commit now st
        = (.success { cur with status := .shipped, updatedAt := now },
           { st with
              orders := st.orders.map (fun o =>
                if o.id = orderId then { o with status := OrderStatus.shipped, updatedAt := now }
                else o)
              processedEvents := st.processedEvents ++
                [{ eventId := eventId
                   eventType := derivedEventType .shipped
                   processedAt := now }] }) := by
      simp [updateOrderStatus, hdup, hfind, hv, performStatusUpdate]
    have hdup1 : checkDuplicateEvent eventId
        (updateOrderStatus orderId .shipped eventId .commit now st).2
        = some (.failure
          { code := .DUPLICATE_EVENT
            message := "Event already processed"
            details := none }) := by
      rw [hstep1]
      unfold checkDuplicateEvent
      simp only [List.find?_append, hfind0, Option.none_or]
      rw [List.find?_cons_of_pos _ (by simp)]
    have hstep2 : updateOrderStatus orderId .shipped eventId .commit now'
        (updateOrderStatus orderId .shipped eventId .commit now st).2
        = (.failure
            { code := .DUPLICATE_EVENT
              message := "Event already processed"
              details := none },
           (updateOrderStatus orderId .shipped eventId .commit now st).2) :=
      updateOrderStatus_of_dup orderId .shipped eventId now' _ _ hdup1
    refine ⟨⟨{ cur with status := .shipped, updatedAt := now }, by rw [hstep1], rfl⟩,
      ⟨{ cur with status := .shipped, updatedAt := now }, ?_, rfl⟩,
      ⟨_, by rw [hstep2], rfl⟩,
      by rw [hstep2],
      ?_⟩
    · rw [hstep2, hstep1]
      unfold findOrderById
      have := find?_map_update_id orderId
        (fun o => { o with status := OrderStatus.shipped, updatedAt := now })
        (fun o => rfl) st.orders
      simp only at this ⊢
      rw [this]
      unfold findOrderById at hfind
      rw [hfind, Option.map_some']
    · rw [hstep1]
      simp only [List.filter_append]
      have h1 : st.processedEvents.filter (fun p => p.eventId = eventId) = [] := by
        rw [List.filter_eq_nil_iff]
        intro a ha
        have := List.find?_eq_none.mp hfind0 a ha
        simpa using this
      rw [h1]
      simp

/-- A concrete pending order used to exercise the theorems. -/
def demoOrder : OrderRow :=
  { id := 1, customerId := "c-1", status := .pendingShipment, items := [],
    totalAmount := 35, idempotencyKey := none, createdAt := 0, updatedAt := 0 }

/-- A concrete processed-event marker for eventId e1. -/
def demoMarker : ProcessedEventRow :=
  { eventId := "e1", eventType := "order.shipped", processedAt := 5 }

/-- A database whose marker table already holds e1. -/
def demoStateWithMarker : DbState :=
  { orders := [], outboxEvents := [], processedEvents := [demoMarker],
    nextOrderId := 1, nextOutboxId := 1 }

/-- A database holding one pending order and no markers. -/
def demoStatePending : DbState :=
  { orders := [demoOrder], outboxEvents := [], processedEvents := [],
    nextOrderId := 2, nextOutboxId := 1 }

/-- Witness for claim C4: with e1 already marked, the update is rejected as
DUPLICATE_EVENT; and on a fresh pending order the same shipped event applied
twice ends Shipped with one marker. -/
theorem updateOrderStatus_duplicate_event_witness :
    (∃ e, updateOrderStatus 1 .shipped "e1" .commit 7 demoStateWithMarker
        = (.failure e, demoStateWithMarker) ∧ e.code = .DUPLICATE_EVENT)
    ∧ (∃ o1, (updateOrderStatus 1 .shipped "e1" .commit 7 demoStatePending).1
        = .success o1 ∧ o1.status = .shipped)
    ∧ (∃ e, (updateOrderStatus 1 .shipped "e1" .commit 9
        (updateOrderStatus 1 .shipped "e1" .commit 7 demoStatePending).2).1
          = .failure e ∧ e.code = .DUPLICATE_EVENT)
    ∧ ((updateOrderStatus 1 .shipped "e1" .commit 7 demoStatePending).2.processedEvents.filter
        (fun p => p.eventId = "e1")).length = 1 := by
  refine ⟨?_, ?_⟩
  · exact (updateOrderStatus_duplicate_event 1 .shipped "e1" 7 9 demoStateWithMarker).1
      demoMarker (by simp [demoStateWithMarker]) rfl
  · obtain ⟨h1, _, h3, _, h5⟩ :=
      (updateOrderStatus_duplicate_event 1 .shipped "e1" 7 9 demoStatePending).2
        demoOrder rfl rfl rfl
    exact ⟨h1, h3, h5⟩

/-- Equation for the committed happy path of `createOrder`. -/
theorem createOrder_commit_eq (request : CreateOrderRequest) (idemKey : Option String)
    (inv : InventoryOutcome) (eventId : String) (now : Nat) (st : DbState)
    (hidem : handleIdempotency idemKey st = none)
    (hval : validateOrderInventory request.items inv = .ok) :
    createOrder request idemKey inv .commit eventId now st =
      (createSuccessResult
        (createOrderWithOutbox request (calculateTotal request.items) idemKey eventId now st).1,
       (createOrderWithOutbox request (calculateTotal request.items) idemKey eventId now st).2,
       true) := by
  unfold createOrder
  rw [hidem, hval]

/-- Claim C1: on the success path of `createOrder` (a fresh accept, not an
idempotent replay), exactly one order row and exactly one outbox row with
eventType order.created and aggregateId equal to the new order's id are
inserted, in the one transaction; any failure result leaves the database
untouched. -/
theorem createOrder_atomic_outbox (request : CreateOrderRequest) (idemKey : Option String)
    (inv : InventoryOutcome) (tx : TxOutcome) (eventId : String) (now : Nat) (st : DbState) :
    (∀ resp, handleIdempotency idemKey st = none →
      (createOrder request idemKey inv tx eventId now st).1 = .success resp →
      ∃ order outboxRow,
        (createOrder request idemKey inv tx eventId now st).2.1.orders
          = st.orders ++ [order] ∧
        (createOrder request idemKey inv tx eventId now st).2.1.outboxEvents
          = st.outboxEvents ++ [outboxRow] ∧
        (createOrder request idemKey inv tx eventId now st).2.1.processedEvents
          = st.processedEvents ∧
        outboxRow.eventType = "order.created" ∧
        outboxRow.payload.eventType = "order.created" ∧
        outboxRow.aggregateId = order.id ∧
        outboxRow.payload.orderId = order.id ∧
        outboxRow.published = false ∧
        order.status = .pendingShipment ∧
        resp.orderId = order.id)
    ∧ (∀ e, (createOrder request idemKey inv tx eventId now st).1 = .failure e →
        (createOrder request idemKey inv tx eventId now st).2.1 = st) := by
  constructor
  · intro resp hidem hsucc
    cases hval : validateOrderInventory request.items inv with
    | fail e =>
      have heq : createOrder request idemKey inv tx eventId now st = (.failure e, st, true) := by
        unfold createOrder
        rw [hidem, hval]
      rw [heq] at hsucc
      simp at hsucc
    | ok =>
      cases tx with
      | abort =>
        have heq : createOrder request idemKey inv .abort eventId now st
            = (.failure handleOrderCreationError, st, true) := by
          unfold createOrder
          rw [hidem, hval]
        rw [heq] at hsucc
        simp at hsucc
      | commit =>
        rw [createOrder_commit_eq request idemKey inv eventId now st hidem hval] at hsucc ⊢
        simp only [createSuccessResult] at hsucc
        refine ⟨(createOrderWithOutbox request (calculateTotal request.items)
            idemKey eventId now st).1,
          { id := st.nextOutboxId
            eventType := "order.created"
            aggregateId := st.nextOrderId
            payload :=
              { eventId := eventId
                eventType := "order.created"
                timestamp := now
                orderId := st.nextOrderId
                customerId := request.customerId
                items := request.items
                totalAmount := calculateTotal request.items
                status := .pendingShipment
                createdAt := now }
            published := false
            retryCount := 0
            nextRetryAt := none
            createdAt := now
            publishedAt := none }, rfl, rfl, rfl, rfl, rfl, rfl, rfl, rfl, rfl, ?_⟩
        have : mapOrderToResponse (createOrderWithOutbox request (calculateTotal request.items)
            idemKey eventId now st).1 = resp := by
          cases hsucc with
          | refl => rfl
        rw [← this]
        rfl
  · intro e hfail
    cases hidem : handleIdempotency idemKey st with
    | some r =>
      have heq : createOrder request idemKey inv tx eventId now st = (r, st, false) := by
        unfold createOrder
        rw [hidem]
      rw [heq]
    | none =>
      cases hval : validateOrderInventory request.items inv with
      | fail e' =>
        have heq : createOrder request idemKey inv tx eventId now st = (.failure e', st, true) := by
          unfold createOrder
          rw [hidem, hval]
        rw [heq]
      | ok =>
        cases tx with
        | abort =>
          have heq : createOrder request idemKey inv .abort eventId now st
              = (.failure handleOrderCreationError, st, true) := by
            unfold createOrder
            rw [hidem, hval]
          rw [heq]
        | commit =>
          rw [createOrder_commit_eq request idemKey inv eventId now st hidem hval] at hfail
          simp [createSuccessResult] at hfail

/-- The happy-path request of the spec's scenario 1. -/
def demoRequest : CreateOrderRequest :=
  { customerId := "c-1"
    items := [{ productId := "p-1", quantity := 2, price := 10 },
              { productId := "p-2", quantity := 1, price := 15 }] }

/-- Inventory results marking both items available. -/
def demoResults : List InventoryCheckResponse :=
  [{ available := true, productId := "p-1", availableQuantity := some 50 },
   { available := true, productId := "p-2", availableQuantity := some 50 }]

/-- An empty database. -/
def demoEmpty : DbState :=
  { orders := [], outboxEvents := [], processedEvents := [], nextOrderId := 1, nextOutboxId := 1 }

/-- Witness for claim C1: a concrete fresh create inserts one order and one
order.created outbox row, and an aborted transaction leaves the empty database
unchanged. -/
theorem createOrder_atomic_outbox_witness :
    (∃ order outboxRow,
      (createOrder demoRequest none (.ok demoResults) .commit "e1" 3 demoEmpty).2.1.orders
        = demoEmpty.orders ++ [order] ∧
      (createOrder demoRequest none (.ok demoResults) .commit "e1" 3 demoEmpty).2.1.outboxEvents
        = demoEmpty.outboxEvents ++ [outboxRow] ∧
      (createOrder demoRequest none (.ok demoResults) .commit "e1" 3 demoEmpty).2.1.processedEvents
        = demoEmpty.processedEvents ∧
      outboxRow.eventType = "order.created" ∧
      outboxRow.payload.eventType = "order.created" ∧
      outboxRow.aggregateId = order.id ∧
      outboxRow.payload.orderId = order.id ∧
      outboxRow.published = false ∧
      order.status = .pendingShipment ∧
      ({ orderId := 1, status := .pendingShipment, customerId := "c-1",
         items := demoRequest.items, totalAmount := 35,
         createdAt := 3 } : CreateOrderResponse).orderId = order.id)
    ∧ (createOrder demoRequest none (.ok demoResults) .abort "e1" 3 demoEmpty).2.1 = demoEmpty := by
  constructor
  · exact (createOrder_atomic_outbox demoRequest none (.ok demoResults) .commit "e1" 3 demoEmpty).1
      { orderId := 1, status := .pendingShipment, customerId := "c-1",
        items := demoRequest.items, totalAmount := 35, createdAt := 3 }
      rfl
      (by
        rw [createOrder_commit_eq demoRequest none (.ok demoResults) "e1" 3 demoEmpty rfl
          (by decide)]
        simp only [createSuccessResult, mapOrderToResponse, createOrderWithOutbox,
          calculateTotal, demoRequest, demoEmpty]
        norm_num)
  · exact (createOrder_atomic_outbox demoRequest none (.ok demoResults) .abort "e1" 3 demoEmpty).2
      handleOrderCreationError (by decide)

/-- Replay path of `createOrder`: an existing order for the key is returned
as-is, with no inventory call and no state change. -/
theorem createOrder_replay (request : CreateOrderRequest) (k : String)
    (inv : InventoryOutcome) (tx : TxOutcome) (eventId : String) (now : Nat)
    (st : DbState) (o : OrderRow)
    (h : findOrderByIdempotencyKey k st = some o) :
    createOrder request (some k) inv tx eventId now st
      = (.success (mapOrderToResponse o), st, false) := by
  have hidem : handleIdempotency (some k) st = some (createSuccessResult o) := by
    simp [handleIdempotency, h]
  unfold createOrder
  rw [hidem]
  rfl

/-- N successive `createOrder` calls with the same request and idempotency key,
each with its own inventory outcome, transaction fate, event id and clock. -/
def createOrderCalls (request : CreateOrderRequest) (idempotencyKey : Option String) :
    List (InventoryOutcome × TxOutcome × String × Nat) → DbState →
    List OrderCreationResult × DbState
  | [], st => ([], st)
  | (inv, tx, eventId, now) :: rest, st =>
    let step := createOrder request idempotencyKey inv tx eventId now st
    let next := createOrderCalls request idempotencyKey rest step.2.1
    (step.1 :: next.1, next.2)

/-- Claim C2: `createOrder` is idempotent in the key: an existing order for key
k is returned in the fresh-create success shape with no inventory check and no
inserts; after one successful fresh create, any number of further calls with
the same key all return that same order and leave the database (hence the
single outbox row) unchanged. -/
theorem createOrder_idempotency_law (request : CreateOrderRequest) (k : String)
    (inv : InventoryOutcome) (tx : TxOutcome) (eventId : String) (now : Nat) (st : DbState) :
    (∀ o, findOrderByIdempotencyKey k st = some o →
      createOrder request (some k) inv tx eventId now st
        = (.success (mapOrderToResponse o), st, false))
    ∧ (findOrderByIdempotencyKey k st = none →
       validateOrderInventory request.items inv = .ok →
       (∀ r ∈ st.outboxEvents, r.aggregateId ≠ st.nextOrderId) →
       ∃ order,
         (createOrder request (some k) inv .commit eventId now st).1
           = .success (mapOrderToResponse order) ∧
         order.idempotencyKey = some k ∧
         findOrderByIdempotencyKey k
             (createOrder request (some k) inv .commit eventId now st).2.1 = some order ∧
         (((createOrder request (some k) inv .commit eventId now st).2.1.outboxEvents.filter
             (fun r => r.aggregateId = order.id)).length = 1) ∧
         ∀ params : List (InventoryOutcome × TxOutcome × String × Nat),
           createOrderCalls request (some k) params
               (createOrder request (some k) inv .commit eventId now st).2.1
             = (List.replicate params.length (.success (mapOrderToResponse order)),
                (createOrder request (some k) inv .commit eventId now st).2.1)) := by
  constructor
  · intro o h
    exact createOrder_replay request k inv tx eventId now st o h
  · intro hfind hval hfresh
    have hidem : handleIdempotency (some k) st = none := by
      simp [handleIdempotency, hfind]
    rw [createOrder_commit_eq request (some k) inv eventId now st hidem hval]
    refine ⟨(createOrderWithOutbox request (calculateTotal request.items)
        (some k) eventId now st).1, rfl, rfl, ?_, ?_, ?_⟩
    · unfold findOrderByIdempotencyKey at hfind ⊢
      show ((st.orders ++ [_]).find? _) = _
      rw [List.find?_append, hfind, Option.none_or]
      rw [List.find?_cons_of_pos _ (by simp)]
      rfl
    · show ((st.outboxEvents ++ [_]).filter _).length = 1
      rw [List.filter_append]
      have h1 : st.outboxEvents.filter
          (fun r => r.aggregateId =
            (createOrderWithOutbox request (calculateTotal request.items)
              (some k) eventId now st).1.id) = [] := by
        rw [List.filter_eq_nil_iff]
        intro a ha
        simpa using hfresh a ha
      rw [h1]
      simp [createOrderWithOutbox]
    · intro params
      have hfound : findOrderByIdempotencyKey k
          (createOrderWithOutbox request (calculateTotal request.items)
            (some k) eventId now st).2
          = some (createOrderWithOutbox request (calculateTotal request.items)
            (some k) eventId now st).1 := by
        unfold findOrderByIdempotencyKey at hfind ⊢
        show ((st.orders ++ [_]).find? _) = _
        rw [List.find?_append, hfind, Option.none_or]
        rw [List.find?_cons_of_pos _ (by simp)]
        rfl
      induction params with
      | nil => rfl
      | cons head tail ih =>
        obtain ⟨inv', tx', eid', now'⟩ := head
        simp only [createOrderCalls]
        rw [createOrder_replay request k inv' tx' eid' now' _ _ hfound]
        simp only [List.replicate, List.length_cons]
        rw [ih]

/-- A pending order carrying idempotency key k-1. -/
def demoOrderKeyed : OrderRow := { demoOrder with idempotencyKey := some "k-1" }

/-- A database already holding the keyed order. -/
def demoStateKeyed : DbState :=
  { orders := [demoOrderKeyed], outboxEvents := [], processedEvents := [],
    nextOrderId := 2, nextOutboxId := 1 }

/-- Witness for claim C2: a replay against the stored key returns the stored
order untouched even under a failing inventory service and aborting
transaction, and a fresh create on the empty database yields one outbox row
that further same-key calls never duplicate. -/
theorem createOrder_idempotency_law_witness :
    createOrder demoRequest (some "k-1") .err .abort "e9" 99 demoStateKeyed
      = (.success (mapOrderToResponse demoOrderKeyed), demoStateKeyed, false)
    ∧ ∃ order,
        (createOrder demoRequest (some "k-1") (.ok demoResults) .commit "e1" 3 demoEmpty).1
          = .success (mapOrderToResponse order) ∧
        order.idempotencyKey = some "k-1" ∧
        findOrderByIdempotencyKey "k-1"
          (createOrder demoRequest (some "k-1") (.ok demoResults) .commit "e1" 3 demoEmpty).2.1
          = some order ∧
        (((createOrder demoRequest (some "k-1") (.ok demoResults) .commit "e1" 3
            demoEmpty).2.1.outboxEvents.filter
            (fun r => r.aggregateId = order.id)).length = 1) ∧
        ∀ params : List (InventoryOutcome × TxOutcome × String × Nat),
          createOrderCalls demoRequest (some "k-1") params
              (createOrder demoRequest (some "k-1") (.ok demoResults) .commit "e1" 3
                demoEmpty).2.1
            = (List.replicate params.length (.success (mapOrderToResponse order)),
               (createOrder demoRequest (some "k-1") (.ok demoResults) .commit "e1" 3
                 demoEmpty).2.1) := by
  constructor
  · exact (createOrder_idempotency_law demoRequest "k-1" .err .abort "e9" 99 demoStateKeyed).1
      demoOrderKeyed
      (by simp [findOrderByIdempotencyKey, demoStateKeyed, demoOrderKeyed, demoOrder])
  · exact (createOrder_idempotency_law demoRequest "k-1" (.ok demoResults) .commit "e1" 3
      demoEmpty).2 rfl (by decide) (by simp [demoEmpty])

/-- Spec-side positional description of the INSUFFICIENT_INVENTORY details: for
every inventory-result index whose result is unavailable, one entry built from
the request item at that same index. -/
def specUnavailableDetails (items : List OrderItem)
    (inventoryResults : List InventoryCheckResponse) : List UnavailableItem :=
  (List.range inventoryResults.length).filterMap (fun index =>
    match inventoryResults.get? index, items.get? index with
    | some result, some item =>
      if result.available then none
      else some
        { productId := item.productId
          requested := item.quantity
          available := result.availableQuantity.getD 0 }
    | _, _ => none)

/-- The source's `findUnavailableItems` computes exactly the positional spec
description when the result list matches the item list in length. -/
theorem findUnavailableItems_eq_spec :
    ∀ (inventoryResults : List InventoryCheckResponse) (items : List OrderItem),
    inventoryResults.length = items.length →
    findUnavailableItems items inventoryResults = specUnavailableDetails items inventoryResults := by
  intro inventoryResults
  induction inventoryResults with
  | nil => intro items _; rfl
  | cons r rs ih =>
    intro items h
    cases items with
    | nil => simp at h
    | cons item rest =>
      have hlen : rs.length = rest.length := by simpa using h
      have htail : findUnavailableItems rest rs = specUnavailableDetails rest rs := ih rest hlen
      have hspec : specUnavailableDetails (item :: rest) (r :: rs)
          = (if r.available then specUnavailableDetails rest rs
             else ({ productId := item.productId
                     requested := item.quantity
                     available := r.availableQuantity.getD 0 } : UnavailableItem)
                :: specUnavailableDetails rest rs) := by
        unfold specUnavailableDetails
        rw [List.length_cons, List.range_succ_eq_map, List.filterMap_cons, List.filterMap_map]
        have hfun : ∀ index : Nat,
            ((fun index => (
              match (r :: rs).get? index, (item :: rest).get? index with
              | some result, some it =>
                if result.available then none
                else some
                  { productId := it.productId
                    requested := it.quantity
                    available := result.availableQuantity.getD 0 }
              | _, _ => none : Option UnavailableItem)) ∘ Nat.succ) index
            = (fun index => (
              match rs.get? index, rest.get? index with
              | some result, some it =>
                if result.available then none
                else some
                  { productId := it.productId
                    requested := it.quantity
                    available := result.availableQuantity.getD 0 }
              | _, _ => none : Option UnavailableItem)) index := by
          intro index
          simp [Function.comp]
        rw [funext hfun]
        cases hav : r.available <;> simp [hav]
      rw [hspec]
      unfold findUnavailableItems
      rw [List.zip_cons_cons, List.filter_cons]
      cases hav : r.available with
      | false =>
        rw [if_pos (by simp [hav])]
        rw [if_neg (by simp)]
        rw [List.map_cons]
        unfold findUnavailableItems at htail
        rw [htail]
      | true =>
        rw [if_neg (by simp [hav])]
        rw [if_pos rfl]
        unfold findUnavailableItems at htail
        rw [htail]

/-- Claim C9: when any inventory result marks an item unavailable, `createOrder`
fails with INSUFFICIENT_INVENTORY, its details list corresponds positionally to
the unavailable inventory-result indices, and no order or outbox row is
created. -/
theorem createOrder_insufficient_inventory (request : CreateOrderRequest)
    (idemKey : Option String) (results : List InventoryCheckResponse)
    (tx : TxOutcome) (eventId : String) (now : Nat) (st : DbState)
    (hidem : handleIdempotency idemKey st = none)
    (hlen : results.length = request.items.length)
    (hunavail : ∃ r ∈ results, r.available = false) :
    ∃ e, (createOrder request idemKey (.ok results) tx eventId now st).1 = .failure e ∧
      e.code = .INSUFFICIENT_INVENTORY ∧
      e.details = some (specUnavailableDetails request.items results) ∧
      (createOrder request idemKey (.ok results) tx eventId now st).2.1 = st := by
  obtain ⟨r, hr, hav⟩ := hunavail
  obtain ⟨i, hget⟩ := List.mem_iff_get?.mp hr
  obtain ⟨hi, _⟩ := List.get?_eq_some.mp hget
  have hitem : ∃ item, request.items.get? i = some item := by
    have : i < request.items.length := hlen ▸ hi
    exact ⟨request.items.get ⟨i, this⟩, List.get?_eq_some.mpr ⟨this, rfl⟩⟩
  obtain ⟨item, hitemget⟩ := hitem
  have hmem : ({ productId := item.productId
                 requested := item.quantity
                 available := r.availableQuantity.getD 0 } : UnavailableItem)
      ∈ specUnavailableDetails request.items results := by
    unfold specUnavailableDetails
    apply List.mem_filterMap.mpr
    refine ⟨i, List.mem_range.mpr hi, ?_⟩
    rw [hget, hitemget]
    simp [hav]
  have hlenpos : 0 < (findUnavailableItems request.items results).length := by
    rw [findUnavailableItems_eq_spec results request.items hlen]
    exact List.length_pos.mpr (List.ne_nil_of_mem hmem)
  have hbool : hasUnavailableItems (findUnavailableItems request.items results) = true := by
    simpa [hasUnavailableItems] using hlenpos
  have hval : validateOrderInventory request.items (.ok results)
      = .fail (createInventoryErrorResult (findUnavailableItems request.items results)) := by
    simp [validateOrderInventory, hbool]
  have heq : createOrder request idemKey (.ok results) tx eventId now st
      = (.failure (createInventoryErrorResult (findUnavailableItems request.items results)),
         st, true) := by
    unfold createOrder
    rw [hidem, hval]
  refine ⟨createInventoryErrorResult (findUnavailableItems request.items results),
    by rw [heq], rfl, ?_, by rw [heq]⟩
  show some (findUnavailableItems request.items results) = _
  rw [findUnavailableItems_eq_spec results request.items hlen]

/-- The spec's scenario-3 request: five units of p-1. -/
def demoRequestScarce : CreateOrderRequest :=
  { customerId := "c-1"
    items := [{ productId := "p-1", quantity := 5, price := 10 }] }

/-- Inventory answer for scenario 3: p-1 unavailable with one unit on hand. -/
def demoResultsScarce : List InventoryCheckResponse :=
  [{ available := false, productId := "p-1", availableQuantity := some 1 }]

/-- Witness for claim C9: scenario 3 yields INSUFFICIENT_INVENTORY with detail
list containing p-1, requested 5, available 1, and an unchanged database. -/
theorem createOrder_insufficient_inventory_witness :
    (∃ e, (createOrder demoRequestScarce none (.ok demoResultsScarce) .commit "e1" 3
        demoEmpty).1 = .failure e ∧
      e.code = .INSUFFICIENT_INVENTORY ∧
      e.details = some (specUnavailableDetails demoRequestScarce.items demoResultsScarce) ∧
      (createOrder demoRequestScarce none (.ok demoResultsScarce) .commit "e1" 3
        demoEmpty).2.1 = demoEmpty)
    ∧ specUnavailableDetails demoRequestScarce.items demoResultsScarce
        = [{ productId := "p-1", requested := 5, available := 1 }] := by
  constructor
  · exact createOrder_insufficient_inventory demoRequestScarce none demoResultsScarce
      .commit "e1" 3 demoEmpty rfl rfl
      ⟨{ available := false, productId := "p-1", availableQuantity := some 1 },
        by simp [demoResultsScarce], rfl⟩
  · decide

/-! ## Outbox publisher claims -/

/-- A stored outbox row freshly inserted for an order (retryCount 0). -/
def demoOutboxRow : OutboxRow :=
  { id := 1, eventType := "order.created", aggregateId := 1,
    payload := { eventId := "evt-1", eventType := "order.created", timestamp := 0,
                 orderId := 1, customerId := "c-1", items := [], totalAmount := 35,
                 status := .pendingShipment, createdAt := 0 },
    published := false, retryCount := 0, nextRetryAt := none, createdAt := 0,
    publishedAt := none }

/-- Consecutive failing publish attempts on the demo row at t = 1000..5000 ms. -/
def failSim0 : RowSim := { row := demoOutboxRow, dlqTopic := [] }

/-- State after the first failed attempt. -/
def failSim1 : RowSim := publishFailStep "dlq-1" 1000 failSim0

/-- State after the second failed attempt. -/
def failSim2 : RowSim := publishFailStep "dlq-2" 2000 failSim1

/-- State after the third failed attempt. -/
def failSim3 : RowSim := publishFailStep "dlq-3" 3000 failSim2

/-- State after the fourth failed attempt. -/
def failSim4 : RowSim := publishFailStep "dlq-4" 4000 failSim3

/-- State after the fifth failed attempt. -/
def failSim5 : RowSim := publishFailStep "dlq-5" 5000 failSim4

/-- Counterexample for claim C6: on a row failing every attempt, the stored
retryCount progresses 1, 2, 3, 4 and then stays 4 when the fifth failure
publishes to the DLQ — it never reaches 5, contradicting the claimed 1→5
progression. -/
theorem outbox_retry_count_cex :
    failSim1.row.retryCount = 1 ∧ failSim2.row.retryCount = 2 ∧
    failSim3.row.retryCount = 3 ∧ failSim4.row.retryCount = 4 ∧
    failSim5.row.retryCount = 4 ∧ failSim5.row.retryCount ≠ 5 ∧
    failSim5.row.published = true ∧
    failSim5.dlqTopic.map (fun d => d.eventType) = ["dlq.event"] ∧
    failSim5.dlqTopic.map (fun d => d.reason) = ["Max retries exceeded"] ∧
    leasable failSim0.row 1000 = true ∧ leasable failSim1.row 2000 = true ∧
    leasable failSim2.row 3000 = true ∧ leasable failSim3.row 4000 = true ∧
    leasable failSim4.row 5000 = true := by
  decide

/-- Claim C6 (amended): for a fresh outbox row failing on every attempt, the
stored retryCount progresses 1→4; the fifth consecutive failure (newRetryCount
= maxRetries = 5) marks the row published and publishes exactly one DLQ event
with eventType dlq.event, reason Max retries exceeded, and originalEvent equal
to the leased row snapshot. -/
theorem outbox_five_failures_dlq (row : OutboxRow) (d1 d2 d3 d4 d5 : String)
    (t1 t2 t3 t4 t5 : Nat)
    (h0 : row.retryCount = 0) (hpub : row.published = false)
    (hnra : row.nextRetryAt = none)
    (h12 : t1 + 100 ≤ t2) (h23 : t2 + 200 ≤ t3) (h34 : t3 + 400 ≤ t4)
    (h45 : t4 + 800 ≤ t5) :
    let s0 : RowSim := { row := row, dlqTopic := [] }
    let s1 := publishFailStep d1 t1 s0
    let s2 := publishFailStep d2 t2 s1
    let s3 := publishFailStep d3 t3 s2
    let s4 := publishFailStep d4 t4 s3
    let s5 := publishFailStep d5 t5 s4
    (leasable s0.row t1 = true ∧ leasable s1.row t2 = true ∧
     leasable s2.row t3 = true ∧ leasable s3.row t4 = true ∧
     leasable s4.row t5 = true) ∧
    (s1.row.retryCount = 1 ∧ s2.row.retryCount = 2 ∧
     s3.row.retryCount = 3 ∧ s4.row.retryCount = 4) ∧
    s5.row.published = true ∧ s5.row.publishedAt = some t5 ∧
    s5.row.retryCount = 4 ∧
    s5.dlqTopic = [{ eventId := d5, eventType := "dlq.event", timestamp := t5,
                     originalEvent := leaseSnapshot s4.row,
                     reason := "Max retries exceeded" }] := by
  simp only [publishFailStep, handleRetry, moveToDeadLetterQueue, leaseSnapshot,
    leasable, maxRetries, baseDelayMs, maxDelayMs, h0, hpub, hnra]
  norm_num
  omega

/-- Witness for claim C6 (amended): the demo row run through five failing
attempts at t = 1000..5000 ms. -/
theorem outbox_five_failures_dlq_witness :
    (leasable failSim0.row 1000 = true ∧ leasable failSim1.row 2000 = true ∧
     leasable failSim2.row 3000 = true ∧ leasable failSim3.row 4000 = true ∧
     leasable failSim4.row 5000 = true) ∧
    (failSim1.row.retryCount = 1 ∧ failSim2.row.retryCount = 2 ∧
     failSim3.row.retryCount = 3 ∧ failSim4.row.retryCount = 4) ∧
    failSim5.row.published = true ∧ failSim5.row.publishedAt = some 5000 ∧
    failSim5.row.retryCount = 4 ∧
    failSim5.dlqTopic = [{ eventId := "dlq-5", eventType := "dlq.event",
                           timestamp := 5000,
                           originalEvent := leaseSnapshot failSim4.row,
                           reason := "Max retries exceeded" }] := by
  exact outbox_five_failures_dlq demoOutboxRow "dlq-1" "dlq-2" "dlq-3" "dlq-4" "dlq-5"
    1000 2000 3000 4000 5000 rfl rfl rfl (by omega) (by omega) (by omega) (by omega)

/-- Counterexample for claim C7: on a row failing every attempt, the scheduled
delays are exactly 100, 200, 400, 800 ms; the 1600 ms delay is never observed —
the fifth failure routes to the DLQ without scheduling a retry. -/
theorem outbox_retry_delay_cex :
    [failSim1.row.nextRetryAt.getD 0 - 1000,
     failSim2.row.nextRetryAt.getD 0 - 2000,
     failSim3.row.nextRetryAt.getD 0 - 3000,
     failSim4.row.nextRetryAt.getD 0 - 4000] = [100, 200, 400, 800] ∧
    (1600 : Nat) ∉
      [failSim1.row.nextRetryAt.getD 0 - 1000,
       failSim2.row.nextRetryAt.getD 0 - 2000,
       failSim3.row.nextRetryAt.getD 0 - 3000,
       failSim4.row.nextRetryAt.getD 0 - 4000] ∧
    failSim5.row.nextRetryAt = failSim4.row.nextRetryAt ∧
    failSim5.row.published = true ∧
    failSim5.row.retryCount ≠ 5 := by
  decide

/-- Claim C7 (amended): every scheduled retry satisfies
nextRetryAt − now = min(maxDelayMs, baseDelayMs·2^(newRetryCount−1)), which
takes only the values 100, 200, 400, 800 ms (newRetryCount 1..4); at
newRetryCount ≥ maxRetries no retry is scheduled (the row goes to the DLQ), so
the 1600 ms cap is never observed. -/
theorem outbox_retry_backoff (event : OutboxEventRow) (dlqEventId : String)
    (now : Nat) (s : RowSim) :
    (event.retryCount + 1 < maxRetries →
      (handleRetry event dlqEventId now s).row.retryCount = event.retryCount + 1 ∧
      (handleRetry event dlqEventId now s).row.nextRetryAt
        = some (now + min (baseDelayMs * 2 ^ (event.retryCount + 1 - 1)) maxDelayMs) ∧
      min (baseDelayMs * 2 ^ (event.retryCount + 1 - 1)) maxDelayMs
        ∈ [100, 200, 400, 800] ∧
      (handleRetry event dlqEventId now s).dlqTopic = s.dlqTopic ∧
      (handleRetry event dlqEventId now s).row.published = s.row.published)
    ∧ (event.retryCount + 1 ≥ maxRetries →
      (handleRetry event dlqEventId now s).row.nextRetryAt = s.row.nextRetryAt ∧
      (handleRetry event dlqEventId now s).row.published = true) := by
  constructor
  · intro h
    simp only [maxRetries] at h
    have hif : ¬ (event.retryCount + 1 ≥ maxRetries) := by
      simp only [maxRetries]
      omega
    unfold handleRetry
    rw [if_neg hif]
    refine ⟨rfl, rfl, ?_, rfl, rfl⟩
    have hrc : event.retryCount < 4 := by omega
    interval_cases h4 : event.retryCount <;> decide
  · intro h
    unfold handleRetry
    rw [if_pos h]
    exact ⟨rfl, rfl⟩

/-- Witness for claim C7 (amended): the fresh demo snapshot schedules a retry at
now + 100 ms, and the snapshot at retryCount 4 schedules nothing. -/
theorem outbox_retry_backoff_witness :
    ((handleRetry (leaseSnapshot demoOutboxRow) "dlq-1" 1000 failSim0).row.retryCount = 1 ∧
     (handleRetry (leaseSnapshot demoOutboxRow) "dlq-1" 1000 failSim0).row.nextRetryAt
       = some (1000 + min (baseDelayMs * 2 ^ (0 + 1 - 1)) maxDelayMs) ∧
     min (baseDelayMs * 2 ^ (0 + 1 - 1)) maxDelayMs ∈ [100, 200, 400, 800] ∧
     (handleRetry (leaseSnapshot demoOutboxRow) "dlq-1" 1000 failSim0).dlqTopic
       = failSim0.dlqTopic ∧
     (handleRetry (leaseSnapshot demoOutboxRow) "dlq-1" 1000
        failSim0).row.published = failSim0.row.published)
    ∧ ((handleRetry (leaseSnapshot failSim4.row) "dlq-5" 5000 failSim4).row.nextRetryAt
        = failSim4.row.nextRetryAt ∧
      (handleRetry (leaseSnapshot failSim4.row) "dlq-5" 5000 failSim4).row.published
        = true) := by
  constructor
  · exact (outbox_retry_backoff (leaseSnapshot demoOutboxRow) "dlq-1" 1000 failSim0).1
      (by decide)
  · exact (outbox_retry_backoff (leaseSnapshot failSim4.row) "dlq-5" 5000 failSim4).2
      (by decide)

/-! ## Circuit breaker claims -/

/-- Invariant: an open circuit has accumulated at least `failureThreshold`
failures (the only write that opens it happens at the threshold). -/
def BreakerInv (cfg : CircuitBreakerConfig) (cb : CircuitBreakerState) : Prop :=
  cb.state = .OPEN → cfg.failureThreshold ≤ cb.failureCount

/-- One `execute` call preserves the breaker invariant. -/
theorem breakerInv_preserved (cfg : CircuitBreakerConfig) (now : Nat)
    (outcome : OpOutcome) (cb : CircuitBreakerState) (h : BreakerInv cfg cb) :
    BreakerInv cfg (execute cfg now outcome cb).2 := by
  unfold BreakerInv at *
  unfold execute
  by_cases hopen : cb.state = .OPEN ∧ ¬ shouldAttemptReset cb now
  · rw [if_pos hopen]
    exact h
  · rw [if_neg hopen]
    cases outcome with
    | success => simp [onSuccess]
    | failure =>
      simp only [onFailure]
      split_ifs <;> simp_all
    | timedOut =>
      simp only [onFailure]
      split_ifs <;> simp_all

/-- Every breaker state reachable from the initial closed state satisfies the
invariant. -/
theorem breakerInv_reachable (cfg : CircuitBreakerConfig) (cb : CircuitBreakerState)
    (h : BreakerReachable cfg cb) : BreakerInv cfg cb := by
  induction h with
  | init =>
    intro hopen
    simp [initialBreaker] at hopen
  | step cb now outcome _ ih =>
    exact breakerInv_preserved cfg now outcome cb ih

/-- Claim C8: entering HalfOpen (state Open with now ≥ nextAttempt), a single
successful operation closes the breaker with failureCount 0, and a single
failed or timed-out operation reopens it with nextAttempt = now + resetTimeout. -/
theorem circuitBreaker_halfOpen_probe (cfg : CircuitBreakerConfig)
    (cb : CircuitBreakerState) (now : Nat)
    (hreach : BreakerReachable cfg cb)
    (hopen : cb.state = .OPEN)
    (hdue : shouldAttemptReset cb now = true) :
    ((execute cfg now .success cb).2.failureCount = 0 ∧
     (execute cfg now .success cb).2.state = .CLOSED) ∧
    (∀ outcome, outcome = OpOutcome.failure ∨ outcome = OpOutcome.timedOut →
      (execute cfg now outcome cb).2.state = .OPEN ∧
      (execute cfg now outcome cb).2.nextAttempt = some (now + cfg.resetTimeout)) := by
  have hinv : cfg.failureThreshold ≤ cb.failureCount :=
    breakerInv_reachable cfg cb hreach hopen
  have hcond : ¬ (cb.state = .OPEN ∧ ¬ shouldAttemptReset cb now) := by
    simp [hdue]
  constructor
  · unfold execute
    rw [if_neg hcond, if_pos hopen]
    exact ⟨rfl, rfl⟩
  · intro outcome houtcome
    have hthresh : cfg.failureThreshold ≤ cb.failureCount + 1 := by omega
    rcases houtcome with h | h <;> subst h <;>
      · unfold execute
        rw [if_neg hcond, if_pos hopen]
        simp only [onFailure]
        rw [if_pos (by simpa using hthresh)]
        exact ⟨rfl, rfl⟩

/-- The default breaker configuration from env (threshold 5, timeout 5 s,
reset 30 s). -/
def demoBreakerCfg : CircuitBreakerConfig :=
  { failureThreshold := 5, timeout := 5000, resetTimeout := 30000 }

/-- One failing `execute` call at t = 0 under the default configuration. -/
def breakerFailStep (cb : CircuitBreakerState) : CircuitBreakerState :=
  (execute demoBreakerCfg 0 .failure cb).2

/-- The breaker after five straight failures at t = 0: open until t = 30000. -/
def demoOpenBreaker : CircuitBreakerState :=
  breakerFailStep (breakerFailStep (breakerFailStep (breakerFailStep
    (breakerFailStep initialBreaker))))

/-- The five-failure breaker is reachable. -/
theorem demoOpenBreaker_reachable : BreakerReachable demoBreakerCfg demoOpenBreaker :=
  .step _ 0 .failure (.step _ 0 .failure (.step _ 0 .failure (.step _ 0 .failure
    (.step _ 0 .failure .init))))

/-- Witness for claim C8: the reachable open breaker probed at t = 30000 closes
on success and reopens until t = 60000 on failure. -/
theorem circuitBreaker_halfOpen_probe_witness :
    ((execute demoBreakerCfg 30000 .success demoOpenBreaker).2.failureCount = 0 ∧
     (execute demoBreakerCfg 30000 .success demoOpenBreaker).2.state = .CLOSED) ∧
    ((execute demoBreakerCfg 30000 .failure demoOpenBreaker).2.state = .OPEN ∧
     (execute demoBreakerCfg 30000 .failure demoOpenBreaker).2.nextAttempt
       = some (30000 + demoBreakerCfg.resetTimeout)) := by
  have h := circuitBreaker_halfOpen_probe demoBreakerCfg demoOpenBreaker 30000
    demoOpenBreaker_reachable (by decide) (by decide)
  exact ⟨h.1, h.2 .failure (Or.inl rfl)⟩

end SalesSystem
